import Mathlib

/-!
Shallow embedding of the `cognito-flask-infrastructure` CDK application.

The repository declares three CDK stacks and a top-level orchestrator:
  * `CognitoStack`  (src/lib/cognito-stack.ts, first document) — a Cognito
    user pool, an app client, and four CfnOutputs;
  * `EcrStack`      (src/lib/cognito-stack.ts, second document) — an ECR
    repository with two lifecycle rules and five CfnOutputs;
  * `EcsStack`      (src/lib/ecs-stack.ts) — VPC, cluster, IAM roles, log
    group, load-balanced Fargate service, health check, autoscaling;
  * `InfrastructureStack` (src/unnamed/part_000) — instantiates the three
    stacks, wires outputs, and adds two explicit dependency edges.

Synthesis-time string values that interpolate CloudFormation attribute
tokens (template literals such as `arn:aws:cognito-idp:${this.region}:...`)
are embedded as lists of fragments (`SynthString`): literal text
interleaved with opaque attribute tokens.  A value generated only at
provisioning time (the user-pool id, the client secret, the load balancer
DNS name, ...) is one token; a value never interpolated anywhere simply
never occurs in any fragment list.
-/

/-- A CloudFormation attribute token: a value unknown at synthesis time,
resolved by the provisioning engine.  `userPoolClientSecret` models the
secret generated for the user-pool client (`generateSecret: true`); it is
listed so that claims about values NOT appearing in outputs are non-vacuous. -/
inductive Tok where
  | lit (s : String)
  | region
  | account
  | userPoolId
  | userPoolArn
  | userPoolClientId
  | userPoolClientSecret
  | repositoryUri
  | repositoryArn
  | repositoryName
  | loadBalancerDnsName
  | serviceName
  | taskDefinitionArn
deriving DecidableEq, Repr

/-- A synthesis-time string: literal fragments interleaved with tokens. -/
abbrev SynthString := List Tok

/-- `cdk.Duration`, stored as a number of seconds. -/
structure Duration where
  toSeconds : Nat
deriving DecidableEq, Repr

/-- `cdk.Duration.seconds(n)`. -/
def Duration.seconds (n : Nat) : Duration := ⟨n⟩

/-- `cdk.Duration.minutes(n)`. -/
def Duration.minutes (n : Nat) : Duration := ⟨n * 60⟩

/-- `cdk.Duration.days(n)`. -/
def Duration.days (n : Nat) : Duration := ⟨n * 86400⟩

/-- `cdk.RemovalPolicy`. -/
inductive RemovalPolicy where
  | destroy
  | retain
deriving DecidableEq, Repr

/-- A `cdk.CfnOutput` declaration: construct id, synthesized value,
description, optional export name. -/
structure CfnOutput where
  name : String
  value : SynthString
  description : String
  exportName : Option String
deriving DecidableEq, Repr

/-- JavaScript `x || d` on an optional numeric property: `undefined` and
the falsy value `0` both fall back to the default. -/
def jsOrNat : Option Nat → Nat → Nat
  | none, d => d
  | some 0, d => d
  | some n, _ => n

/-- JavaScript `x || d` on an optional string property: `undefined` and
the falsy empty string both fall back to the default. -/
def jsOrString : Option String → String → String
  | none, d => d
  | some s, d => if s = "" then d else s

/-! ## Identity Stack (`CognitoStack`, src/lib/cognito-stack.ts) -/

/-- `cognito.SignInAliases` as used by the source (`{ email: true }`). -/
structure SignInAliases where
  email : Bool
deriving DecidableEq, Repr

/-- `cognito.AutoVerifiedAttrs` as used by the source (`{ email: true }`). -/
structure AutoVerify where
  email : Bool
deriving DecidableEq, Repr

/-- One standard attribute configuration (`{ required, mutable }`). -/
structure StandardAttribute where
  required : Bool
  mutable : Bool
deriving DecidableEq, Repr

/-- `cognito.PasswordPolicy` fields set by the source. -/
structure PasswordPolicy where
  minLength : Nat
  requireLowercase : Bool
  requireUppercase : Bool
  requireDigits : Bool
  requireSymbols : Bool
deriving DecidableEq, Repr

/-- `cognito.AccountRecovery` variants used. -/
inductive AccountRecovery where
  | emailOnly
deriving DecidableEq, Repr

/-- The `cognito.UserPool` declaration made by `CognitoStack`. -/
structure UserPoolProps where
  userPoolName : String
  selfSignUpEnabled : Bool
  signInAliases : SignInAliases
  autoVerify : AutoVerify
  standardAttributesEmail : StandardAttribute
  passwordPolicy : PasswordPolicy
  accountRecovery : AccountRecovery
  removalPolicy : RemovalPolicy
deriving DecidableEq, Repr

/-- `cognito.AuthFlow` fields set by the source. -/
structure AuthFlows where
  userPassword : Bool
  userSrp : Bool
  custom : Bool
deriving DecidableEq, Repr

/-- The `cognito.UserPoolClient` declaration made by `CognitoStack`. -/
structure UserPoolClientProps where
  userPoolClientName : String
  generateSecret : Bool
  authFlows : AuthFlows
  preventUserExistenceErrors : Bool
  accessTokenValidity : Duration
  idTokenValidity : Duration
  refreshTokenValidity : Duration
deriving DecidableEq, Repr

/-- `CognitoStackProps` (both fields optional in the source). -/
structure CognitoStackProps where
  userPoolName : Option String
  appClientName : Option String
deriving DecidableEq, Repr

/-- The synthesized content of `CognitoStack`. -/
structure CognitoStack where
  userPool : UserPoolProps
  userPoolClient : UserPoolClientProps
  userPoolId : SynthString
  userPoolClientId : SynthString
  outputs : List CfnOutput
  tags : List (String × String)
deriving DecidableEq, Repr

/-- `CognitoStack`'s constructor (src/lib/cognito-stack.ts, lines 16-94).
The `props` argument is optional in the source (`props?`). -/
def cognitoStack (props : Option CognitoStackProps) : CognitoStack :=
  { userPool :=
      { userPoolName := jsOrString (props.bind (·.userPoolName)) "flask-auth-pool"
        selfSignUpEnabled := true
        signInAliases := { email := true }
        autoVerify := { email := true }
        standardAttributesEmail := { required := true, mutable := true }
        passwordPolicy :=
          { minLength := 8
            requireLowercase := true
            requireUppercase := true
            requireDigits := true
            requireSymbols := false }
        accountRecovery := .emailOnly
        removalPolicy := .destroy }
    userPoolClient :=
      { userPoolClientName := jsOrString (props.bind (·.appClientName)) "flask-auth-client"
        generateSecret := true
        authFlows := { userPassword := true, userSrp := true, custom := true }
        preventUserExistenceErrors := true
        accessTokenValidity := Duration.minutes 60
        idTokenValidity := Duration.minutes 60
        refreshTokenValidity := Duration.days 30 }
    userPoolId := [.userPoolId]
    userPoolClientId := [.userPoolClientId]
    outputs :=
      [ { name := "UserPoolId"
          value := [.userPoolId]
          description := "Cognito User Pool ID"
          exportName := some "CognitoUserPoolId" }
      , { name := "UserPoolArn"
          value := [.userPoolArn]
          description := "Cognito User Pool ARN"
          exportName := some "CognitoUserPoolArn" }
      , { name := "UserPoolClientId"
          value := [.userPoolClientId]
          description := "Cognito User Pool Client ID"
          exportName := some "CognitoUserPoolClientId" }
      , { name := "GetClientSecretCommand"
          value :=
            [ .lit "aws cognito-idp describe-user-pool-client --user-pool-id "
            , .userPoolId
            , .lit " --client-id "
            , .userPoolClientId
            , .lit " --query \x27UserPoolClient.ClientSecret\x27 --output text" ]
          description := "Command to retrieve User Pool Client Secret"
          exportName := none } ]
    tags := [("Project", "FlaskAuthApp"), ("Environment", "Development")] }

/-! ## Registry Stack (`EcrStack`, second document of src/lib/cognito-stack.ts) -/

/-- `ecr.TagMutability`. -/
inductive TagMutability where
  | mutable
  | immutable
deriving DecidableEq, Repr

/-- `ecr.TagStatus`. -/
inductive TagStatus where
  | any
  | tagged
  | untagged
deriving DecidableEq, Repr

/-- One `ecr.LifecycleRule` as declared (fields the source may set;
`tagStatus` and `tagPrefixList` are left out on the count-based rule). -/
structure LifecycleRule where
  description : String
  tagStatus : Option TagStatus
  tagPrefixList : Option (List String)
  maxImageCount : Option Nat
  maxImageAge : Option Duration
deriving DecidableEq, Repr

/-- The tag status a declared lifecycle rule is applied with.  Per the CDK
toolkit (`aws-ecr` `Repository.addLifecycleRule`), a rule that omits
`tagStatus` defaults to `TAGGED` when a `tagPrefixList` is given and to
`ANY` (all images, tagged or not) otherwise. -/
def effectiveTagStatus (r : LifecycleRule) : TagStatus :=
  match r.tagStatus with
  | some t => t
  | none => if (LifecycleRule.tagPrefixList r).isSome then .tagged else .any

/-- The `ecr.Repository` declaration made by `EcrStack`. -/
structure RepositoryProps where
  repositoryName : String
  imageScanOnPush : Bool
  imageTagMutability : TagMutability
  lifecycleRules : List LifecycleRule
  removalPolicy : RemovalPolicy
  emptyOnDelete : Bool
deriving DecidableEq, Repr

/-- `EcrStackProps` (field optional in the source). -/
structure EcrStackProps where
  repositoryName : Option String
deriving DecidableEq, Repr

/-- The synthesized content of `EcrStack`. -/
structure EcrStack where
  repository : RepositoryProps
  repositoryUri : SynthString
  repositoryArn : SynthString
  outputs : List CfnOutput
  tags : List (String × String)
deriving DecidableEq, Repr

/-- `EcrStack`'s constructor (src/lib/cognito-stack.ts, second document,
lines 109-168 of the concatenated file). -/
def ecrStack (props : Option EcrStackProps) : EcrStack :=
  { repository :=
      { repositoryName := jsOrString (props.bind (·.repositoryName)) "flask-auth-app"
        imageScanOnPush := true
        imageTagMutability := .mutable
        lifecycleRules :=
          [ { description := "Keep last 10 images"
              tagStatus := none
              tagPrefixList := none
              maxImageCount := some 10
              maxImageAge := none }
          , { description := "Remove untagged images after 1 day"
              tagStatus := some .untagged
              tagPrefixList := none
              maxImageCount := none
              maxImageAge := some (Duration.days 1) } ]
        removalPolicy := .destroy
        emptyOnDelete := true }
    repositoryUri := [.repositoryUri]
    repositoryArn := [.repositoryArn]
    outputs :=
      [ { name := "RepositoryUri"
          value := [.repositoryUri]
          description := "ECR Repository URI"
          exportName := some "EcrRepositoryUri" }
      , { name := "RepositoryArn"
          value := [.repositoryArn]
          description := "ECR Repository ARN"
          exportName := some "EcrRepositoryArn" }
      , { name := "RepositoryName"
          value := [.repositoryName]
          description := "ECR Repository Name"
          exportName := some "EcrRepositoryName" }
      , { name := "DockerLoginCommand"
          value :=
            [ .lit "aws ecr get-login-password --region "
            , .region
            , .lit " | docker login --username AWS --password-stdin "
            , .repositoryUri ]
          description := "Docker login command"
          exportName := none }
      , { name := "DockerBuildPushCommands"
          value :=
            [ .lit "docker build -t "
            , .repositoryName
            , .lit " ../frontend && docker tag "
            , .repositoryName
            , .lit ":latest "
            , .repositoryUri
            , .lit ":latest && docker push "
            , .repositoryUri
            , .lit ":latest" ]
          description := "Docker build and push commands"
          exportName := none } ]
    tags := [("Project", "FlaskAuthApp"), ("Environment", "Development")] }

/-! ## Orchestration Stack (`EcsStack`, src/lib/ecs-stack.ts) -/

/-- `ec2.SubnetType` variants used. -/
inductive SubnetType where
  | publicSubnet
  | privateWithEgress
deriving DecidableEq, Repr

/-- One entry of the VPC's `subnetConfiguration`. -/
structure SubnetConfiguration where
  cidrMask : Nat
  name : String
  subnetType : SubnetType
deriving DecidableEq, Repr

/-- The `ec2.Vpc` declaration made by `EcsStack`. -/
structure VpcProps where
  maxAzs : Nat
  natGateways : Nat
  subnetConfiguration : List SubnetConfiguration
deriving DecidableEq, Repr

/-- The number of availability zones a VPC declared with `maxAzs` spans,
given how many zones the target environment offers: the toolkit uses at
most `maxAzs` of the available zones. -/
def vpcAzCount (v : VpcProps) (availableAzs : Nat) : Nat :=
  min v.maxAzs availableAzs

/-- How many subnets of type `t` the VPC declaration yields: one per
configured entry of that type in each availability zone used. -/
def subnetCount (v : VpcProps) (availableAzs : Nat) (t : SubnetType) : Nat :=
  vpcAzCount v availableAzs *
    (v.subnetConfiguration.filter (fun s => decide (s.subnetType = t))).length

/-- The `ecs.Cluster` declaration made by `EcsStack`. -/
structure ClusterProps where
  clusterName : String
  containerInsights : Bool
deriving DecidableEq, Repr

/-- `iam.Effect`. -/
inductive Effect where
  | allow
  | deny
deriving DecidableEq, Repr

/-- One `iam.PolicyStatement` (effect, action names, resource ARNs). -/
structure PolicyStatement where
  effect : Effect
  actions : List String
  resources : List SynthString
deriving DecidableEq, Repr

/-- An `iam.Role` declaration: trust principal, attached AWS managed
policies, and inline statements added with `addToPolicy`. -/
structure Role where
  assumedBy : String
  managedPolicies : List String
  statements : List PolicyStatement
deriving DecidableEq, Repr

/-- The `logs.LogGroup` declaration made by `EcsStack`. -/
structure LogGroupProps where
  logGroupName : String
  retentionDays : Nat
  removalPolicy : RemovalPolicy
deriving DecidableEq, Repr

/-- An `ecs.ContainerImage`: either a live reference to an ECR repository
construct (`ContainerImage.fromEcrRepository(repo, tag)`), or a plain
registry URI string (`ContainerImage.fromRegistry(uri)`).  The source uses
only the first form. -/
inductive ContainerImage where
  | fromEcrRepository (repository : RepositoryProps) (tag : String)
  | fromRegistry (uri : SynthString)
deriving DecidableEq, Repr

/-- Whether an image source is a live object handle to a repository
construct rather than a plain configuration value. -/
def ContainerImage.isLiveHandle : ContainerImage → Bool
  | .fromEcrRepository _ _ => true
  | .fromRegistry _ => false

/-- The `awsLogs` log driver configuration. -/
structure AwsLogDriver where
  streamPref : String
  logGroupName : String
deriving DecidableEq, Repr

/-- `taskImageOptions` of the load-balanced Fargate service. -/
structure TaskImageOptions where
  image : ContainerImage
  containerPort : Nat
  environment : List (String × SynthString)
  secrets : List (String × SynthString)
  logDriver : AwsLogDriver
  executionRole : Role
  taskRole : Role
deriving DecidableEq, Repr

/-- The `ecs_patterns.ApplicationLoadBalancedFargateService` declaration. -/
structure FargateServiceProps where
  cpu : Nat
  memoryLimitMiB : Nat
  desiredCount : Nat
  taskImageOptions : TaskImageOptions
  publicLoadBalancer : Bool
  listenerPort : Nat
  healthCheckGracePeriod : Duration
deriving DecidableEq, Repr

/-- The target group health check configured on the service. -/
structure HealthCheck where
  path : String
  interval : Duration
  timeout : Duration
  healthyThresholdCount : Nat
  unhealthyThresholdCount : Nat
deriving DecidableEq, Repr

/-- One target-tracking scaling policy. -/
structure ScalingPolicy where
  targetUtilizationPercent : Nat
  scaleInCooldown : Duration
  scaleOutCooldown : Duration
deriving DecidableEq, Repr

/-- The autoscaling configuration: capacity bounds from
`autoScaleTaskCount` plus the CPU and memory target-tracking policies. -/
structure AutoScaling where
  minCapacity : Nat
  maxCapacity : Nat
  cpuScaling : ScalingPolicy
  memoryScaling : ScalingPolicy
deriving DecidableEq, Repr

/-- `EcsStackProps` (src/lib/ecs-stack.ts, lines 10-17).  `ecrRepository`
is typed `ecr.IRepository` in the source: a live reference to the
repository construct, embedded here as the construct's declaration record.
The two Cognito values are plain strings.  The three sizing fields are
optional; there is no `desiredCount` field. -/
structure EcsStackProps where
  ecrRepository : RepositoryProps
  cognitoUserPoolId : SynthString
  cognitoClientId : SynthString
  containerPort : Option Nat
  cpu : Option Nat
  memoryLimitMiB : Option Nat
deriving DecidableEq, Repr

/-- The synthesized content of `EcsStack`. -/
structure EcsStack where
  vpc : VpcProps
  cluster : ClusterProps
  executionRole : Role
  taskRole : Role
  logGroup : LogGroupProps
  service : FargateServiceProps
  healthCheck : HealthCheck
  autoScaling : AutoScaling
  loadBalancerUrl : SynthString
  outputs : List CfnOutput
  tags : List (String × String)
deriving DecidableEq, Repr

/-- `EcsStack`'s constructor (src/lib/ecs-stack.ts, lines 24-175).
`this.region` and `this.account` are attribute tokens. -/
def ecsStack (props : EcsStackProps) : EcsStack :=
  let containerPort := jsOrNat props.containerPort 8000
  let cpu := jsOrNat props.cpu 512
  let memoryLimitMiB := jsOrNat props.memoryLimitMiB 1024
  let executionRole : Role :=
    { assumedBy := "ecs-tasks.amazonaws.com"
      managedPolicies := ["service-role/AmazonECSTaskExecutionRolePolicy"]
      statements := [] }
  let taskRole : Role :=
    { assumedBy := "ecs-tasks.amazonaws.com"
      managedPolicies := []
      statements :=
        [ { effect := .allow
            actions :=
              [ "cognito-idp:InitiateAuth"
              , "cognito-idp:AdminGetUser"
              , "cognito-idp:AdminInitiateAuth" ]
            resources :=
              [ [.lit "arn:aws:cognito-idp:", .region, .lit ":", .account,
                 .lit ":userpool/"] ++ props.cognitoUserPoolId ] } ] }
  { vpc :=
      { maxAzs := 2
        natGateways := 1
        subnetConfiguration :=
          [ { cidrMask := 24, name := "Public", subnetType := .publicSubnet }
          , { cidrMask := 24, name := "Private", subnetType := .privateWithEgress } ] }
    cluster := { clusterName := "flask-auth-cluster", containerInsights := true }
    executionRole := executionRole
    taskRole := taskRole
    logGroup :=
      { logGroupName := "/ecs/flask-auth-app"
        retentionDays := 7
        removalPolicy := .destroy }
    service :=
      { cpu := cpu
        memoryLimitMiB := memoryLimitMiB
        desiredCount := 1
        taskImageOptions :=
          { image := .fromEcrRepository props.ecrRepository "latest"
            containerPort := containerPort
            environment :=
              [ ("FLASK_APP", [.lit "app.py"])
              , ("FLASK_DEBUG", [.lit "False"])
              , ("COGNITO_USER_POOL_ID", props.cognitoUserPoolId)
              , ("COGNITO_CLIENT_ID", props.cognitoClientId)
              , ("AWS_REGION", [.region]) ]
            secrets := []
            logDriver := { streamPref := "flask-auth", logGroupName := "/ecs/flask-auth-app" }
            executionRole := executionRole
            taskRole := taskRole }
        publicLoadBalancer := true
        listenerPort := 80
        healthCheckGracePeriod := Duration.seconds 60 }
    healthCheck :=
      { path := "/health"
        interval := Duration.seconds 30
        timeout := Duration.seconds 5
        healthyThresholdCount := 2
        unhealthyThresholdCount := 3 }
    autoScaling :=
      { minCapacity := 1
        maxCapacity := 10
        cpuScaling :=
          { targetUtilizationPercent := 70
            scaleInCooldown := Duration.seconds 60
            scaleOutCooldown := Duration.seconds 60 }
        memoryScaling :=
          { targetUtilizationPercent := 80
            scaleInCooldown := Duration.seconds 60
            scaleOutCooldown := Duration.seconds 60 } }
    loadBalancerUrl := [.loadBalancerDnsName]
    outputs :=
      [ { name := "LoadBalancerUrl"
          value := [.lit "http://", .loadBalancerDnsName]
          description := "Application Load Balancer URL"
          exportName := some "LoadBalancerUrl" }
      , { name := "ClusterName"
          value := [.lit "flask-auth-cluster"]
          description := "ECS Cluster Name"
          exportName := some "EcsClusterName" }
      , { name := "ServiceName"
          value := [.serviceName]
          description := "ECS Service Name"
          exportName := some "EcsServiceName" }
      , { name := "TaskDefinitionArn"
          value := [.taskDefinitionArn]
          description := "Task Definition ARN"
          exportName := none } ]
    tags := [("Project", "FlaskAuthApp"), ("Environment", "Development")] }

/-! ## Top-Level Orchestrator (`InfrastructureStack`, src/unnamed/part_000) -/

/-- The base `cdk.StackProps` the orchestrator's constructor accepts and
never reads (environment account/region and description). -/
structure StackProps where
  account : Option String
  region : Option String
  description : Option String
deriving DecidableEq, Repr

/-- The synthesized content of `InfrastructureStack`: the three child
stacks, the explicit dependency edges added with `addDependency`
(as pairs: dependent construct id, prerequisite construct id), and the
overall outputs. -/
structure InfrastructureStack where
  cognitoStack : CognitoStack
  ecrStack : EcrStack
  ecsStack : EcsStack
  dependencies : List (String × String)
  outputs : List CfnOutput
deriving DecidableEq, Repr

/-- `InfrastructureStack`'s constructor (src/unnamed/part_000, lines 8-50).
The `props` argument is optional and unused by the body. -/
def infrastructureStack (_props : Option StackProps) : InfrastructureStack :=
  let cognito := cognitoStack (some { userPoolName := some "flask-auth-pool"
                                      appClientName := some "flask-auth-client" })
  let ecr := ecrStack (some { repositoryName := some "flask-auth-app" })
  let ecs := ecsStack
    { ecrRepository := ecr.repository
      cognitoUserPoolId := cognito.userPoolId
      cognitoClientId := cognito.userPoolClientId
      containerPort := some 8000
      cpu := some 512
      memoryLimitMiB := some 1024 }
  { cognitoStack := cognito
    ecrStack := ecr
    ecsStack := ecs
    dependencies := [("EcsStack", "CognitoStack"), ("EcsStack", "EcrStack")]
    outputs :=
      [ { name := "ApplicationUrl"
          value := [.lit "http://"] ++ ecs.loadBalancerUrl
          description := "Flask Authentication Application URL"
          exportName := none }
      , { name := "DeploymentInstructions"
          value := [.lit "1. Build and push Docker image to ECR | 2. Update ECS service to use new image | 3. Configure Cognito client secret in application"]
          description := "Deployment Steps"
          exportName := none } ] }

/-! ## Claims -/

/-- C1: for every configuration, the top-level orchestrator records both
explicit dependency edges (Orchestration → Identity and
Orchestration → Registry), in addition to the implicit data-flow
dependency created by passing the Identity and Registry Stacks' outputs
into the Orchestration Stack's configuration. -/
theorem C1_orchestrator_dependency_edges (props : Option StackProps) :
    ("EcsStack", "CognitoStack") ∈ (infrastructureStack props).dependencies ∧
    ("EcsStack", "EcrStack") ∈ (infrastructureStack props).dependencies ∧
    (infrastructureStack props).ecsStack =
      ecsStack
        { ecrRepository := (infrastructureStack props).ecrStack.repository
          cognitoUserPoolId := (infrastructureStack props).cognitoStack.userPoolId
          cognitoClientId := (infrastructureStack props).cognitoStack.userPoolClientId
          containerPort := some 8000
          cpu := some 512
          memoryLimitMiB := some 1024 } := by
  refine ⟨?_, ?_, rfl⟩ <;> simp [infrastructureStack]

/-- C2 counterexample: the count-based retention rule of the Registry
Stack (the first lifecycle rule, `maxImageCount: 10`) omits `tagStatus`
and has no tag prefix list, so it is applied with tag status ANY — it does
NOT apply only to tagged images, contrary to the claim. -/
theorem C2_counterexample :
    effectiveTagStatus
      ((ecrStack (some { repositoryName := some "flask-auth-app" })).repository.lifecycleRules.getD 0
        { description := "", tagStatus := none, tagPrefixList := none,
          maxImageCount := none, maxImageAge := none })
      ≠ TagStatus.tagged := by decide

/-- C2 amended: the Registry Stack declares exactly two retention rules;
the count-based rule (keep the 10 most recently pushed images) declares no
tag-status filter and so applies to images of any tag status, while the
second rule removes untagged images older than 1 day. -/
theorem C2_lifecycle_rules (props : Option EcrStackProps) :
    (ecrStack props).repository.lifecycleRules.length = 2 ∧
    (ecrStack props).repository.lifecycleRules.map
        (fun r => (r.maxImageCount, r.maxImageAge, effectiveTagStatus r)) =
      [ (some 10, none, TagStatus.any)
      , (none, some (Duration.days 1), TagStatus.untagged) ] :=
  ⟨rfl, rfl⟩

/-- C3 counterexample: the desired task count of the Orchestration
Stack's service is not a configuration override — no configuration makes
it anything other than 1 (in particular, none makes it 2). -/
theorem C3_counterexample :
    ¬ ∃ props : EcsStackProps, (ecsStack props).service.desiredCount = 2 := by
  rintro ⟨props, h⟩
  simp [ecsStack] at h

/-- C3 amended: container port, CPU units, and memory limit are plain
configuration overrides of the Orchestration Stack defaulting to 8000,
512, and 1024 MiB when omitted (JavaScript `||` semantics), but the
desired task count is not configurable: it is fixed at 1 for every
configuration. -/
theorem C3_sizing_overrides (props : EcsStackProps) :
    (ecsStack props).service.taskImageOptions.containerPort = jsOrNat props.containerPort 8000 ∧
    (ecsStack props).service.cpu = jsOrNat props.cpu 512 ∧
    (ecsStack props).service.memoryLimitMiB = jsOrNat props.memoryLimitMiB 1024 ∧
    (ecsStack props).service.desiredCount = 1 :=
  ⟨rfl, rfl, rfl, rfl⟩

/-- C4 counterexample: in the orchestrator's wiring, the Orchestration
Stack's container image is built from a live handle to the Registry
Stack's repository construct (`ContainerImage.fromEcrRepository`), so the
Registry Stack's output is not consumed as a plain configuration value. -/
theorem C4_counterexample :
    ContainerImage.isLiveHandle
      ((infrastructureStack none).ecsStack.service.taskImageOptions.image) = true := rfl

/-- C4 amended: the Orchestration Stack consumes the Identity Stack's
outputs (user-pool id, client id) as plain configuration values copied
into the container environment, but it consumes the Registry Stack's
repository as a live object handle passed directly into the image
source. -/
theorem C4_cross_stack_inputs (props : Option StackProps) :
    (infrastructureStack props).ecsStack.service.taskImageOptions.image =
      ContainerImage.fromEcrRepository (infrastructureStack props).ecrStack.repository "latest" ∧
    ((infrastructureStack props).ecsStack.service.taskImageOptions.environment.lookup
        "COGNITO_USER_POOL_ID") = some (infrastructureStack props).cognitoStack.userPoolId ∧
    ((infrastructureStack props).ecsStack.service.taskImageOptions.environment.lookup
        "COGNITO_CLIENT_ID") = some (infrastructureStack props).cognitoStack.userPoolClientId := by
  refine ⟨rfl, ?_, ?_⟩ <;> rfl

/-- C5: for every configuration, the Identity Stack declares exactly the
four outputs UserPoolId, UserPoolArn, UserPoolClientId and
GetClientSecretCommand; the client does generate a secret, yet no output's
value mentions the client-secret token — in particular the retrieval
command does not embed the secret. -/
theorem C5_no_secret_in_outputs (props : Option CognitoStackProps) :
    ((cognitoStack props).outputs.map CfnOutput.name) =
      ["UserPoolId", "UserPoolArn", "UserPoolClientId", "GetClientSecretCommand"] ∧
    (cognitoStack props).userPoolClient.generateSecret = true ∧
    ∀ o ∈ (cognitoStack props).outputs, Tok.userPoolClientSecret ∉ o.value := by
  refine ⟨rfl, rfl, ?_⟩
  show ∀ o ∈ (cognitoStack none).outputs, Tok.userPoolClientSecret ∉ o.value
  decide

/-- C6: for every configuration, the Orchestration Stack's task role
carries exactly one inline policy statement — allowing exactly the three
authentication operations InitiateAuth, AdminGetUser and AdminInitiateAuth
on the single user-pool ARN built from the supplied directory identifier —
and no managed policies. -/
theorem C6_task_role_least_privilege (props : EcsStackProps) :
    (ecsStack props).taskRole.statements =
      [ { effect := .allow
          actions :=
            [ "cognito-idp:InitiateAuth"
            , "cognito-idp:AdminGetUser"
            , "cognito-idp:AdminInitiateAuth" ]
          resources :=
            [ [Tok.lit "arn:aws:cognito-idp:", Tok.region, Tok.lit ":", Tok.account,
               Tok.lit ":userpool/"] ++ props.cognitoUserPoolId ] } ] ∧
    (ecsStack props).taskRole.managedPolicies = [] :=
  ⟨rfl, rfl⟩

/-- C7: for every configuration, the Orchestration Stack's autoscaling is
bounded between 1 and 10 tasks, with a CPU target-tracking policy at 70%
and a memory target-tracking policy at 80%, each with 60-second scale-in
and scale-out cooldowns. -/
theorem C7_autoscaling (props : EcsStackProps) :
    (ecsStack props).autoScaling =
      { minCapacity := 1
        maxCapacity := 10
        cpuScaling :=
          { targetUtilizationPercent := 70
            scaleInCooldown := Duration.seconds 60
            scaleOutCooldown := Duration.seconds 60 }
        memoryScaling :=
          { targetUtilizationPercent := 80
            scaleInCooldown := Duration.seconds 60
            scaleOutCooldown := Duration.seconds 60 } } := rfl

/-- C8: for every configuration, the Orchestration Stack's health check
uses the liveness path /health, a 30-second interval, a 5-second timeout,
2 consecutive successes to mark healthy, 3 consecutive failures to mark
unhealthy, and the service grants a 60-second grace period after each task
launch. -/
theorem C8_health_check (props : EcsStackProps) :
    (ecsStack props).healthCheck =
      { path := "/health"
        interval := Duration.seconds 30
        timeout := Duration.seconds 5
        healthyThresholdCount := 2
        unhealthyThresholdCount := 3 } ∧
    (ecsStack props).service.healthCheckGracePeriod = Duration.seconds 60 :=
  ⟨rfl, rfl⟩

/-- C9: for every configuration, in any environment offering at least two
availability zones, the Orchestration Stack's network has at least one
public subnet and at least one egress-only private subnet, and spans at
least two availability zones. -/
theorem C9_network_topology (props : EcsStackProps) (availableAzs : Nat)
    (h : 2 ≤ availableAzs) :
    1 ≤ subnetCount (ecsStack props).vpc availableAzs .publicSubnet ∧
    1 ≤ subnetCount (ecsStack props).vpc availableAzs .privateWithEgress ∧
    2 ≤ vpcAzCount (ecsStack props).vpc availableAzs := by
  refine ⟨?_, ?_, ?_⟩
  · show 1 ≤ min 2 availableAzs * 1
    omega
  · show 1 ≤ min 2 availableAzs * 1
    omega
  · show 2 ≤ min 2 availableAzs
    omega

/-- C9 witness: the network property instantiated at the default
configuration in an environment with exactly two availability zones. -/
theorem C9_network_topology_witness :
    1 ≤ subnetCount (ecsStack
        { ecrRepository := (ecrStack none).repository
          cognitoUserPoolId := [.userPoolId]
          cognitoClientId := [.userPoolClientId]
          containerPort := none
          cpu := none
          memoryLimitMiB := none }).vpc 2 .publicSubnet ∧
    1 ≤ subnetCount (ecsStack
        { ecrRepository := (ecrStack none).repository
          cognitoUserPoolId := [.userPoolId]
          cognitoClientId := [.userPoolClientId]
          containerPort := none
          cpu := none
          memoryLimitMiB := none }).vpc 2 .privateWithEgress ∧
    2 ≤ vpcAzCount (ecsStack
        { ecrRepository := (ecrStack none).repository
          cognitoUserPoolId := [.userPoolId]
          cognitoClientId := [.userPoolClientId]
          containerPort := none
          cpu := none
          memoryLimitMiB := none }).vpc 2 :=
  C9_network_topology
    { ecrRepository := (ecrStack none).repository
      cognitoUserPoolId := [.userPoolId]
      cognitoClientId := [.userPoolClientId]
      containerPort := none
      cpu := none
      memoryLimitMiB := none } 2 (by decide)

/-- C10: for every configuration, the Identity Stack declares its user
pool with the destroy-with-stack removal policy, so destroying the stack
deletes the directory rather than retaining it. -/
theorem C10_user_pool_removal_policy (props : Option CognitoStackProps) :
    (cognitoStack props).userPool.removalPolicy = RemovalPolicy.destroy := rfl
